import Mathlib

/-
Shallow embedding of the TSS 2.0 ESAPI wrapper layer (src/src/lib.rs): the
stateful Context facade, its buffer marshaling, its handle registry and
session triple, and its creation/teardown protocol.  Foreign calls into the
external TPM engine are modelled by oracle parameters: each embedded method
takes the raw status code and the out-parameter values that the engine call
would have produced, and returns the method result, the post-state of the
Context, and the list of foreign-interface events the call emitted.
-/

set_option linter.unusedVariables false

namespace TssEsapi

/-- Wrapper-local error kinds (response_code::WrapperErrorKind).  Only the kind
produced by this layer's own validation, WrongParamSize, is relevant here. -/
inductive WrapperErrorKind
  | WrongParamSize
  deriving DecidableEq, Repr

/-- Modelled from the spec: response_code::Error (the response_code module is not
among the sources).  An error is either a wrapper-local error or a structured
engine error retaining the raw status code. -/
inductive TssError
  | local_error (kind : WrapperErrorKind)
  | tss_error (rc : Nat)
  deriving DecidableEq, Repr

/-- Modelled from the spec: the status translator (Error::from_tss_rc followed by
is_success, response_code module): raw status 0 is success, any other raw status
is a failure carrying the code. -/
def is_success (rc : Nat) : Bool := rc == 0

/-- A sized-buffer wire record (the TPM2B_* family): a size field plus a byte
array of the field's fixed capacity.  Bytes are modelled as Nat. -/
structure TPM2B where
  size : Nat
  buffer : List Nat
  deriving DecidableEq, Repr

/-- The wrap_buffer! macro (src/src/lib.rs lines 137-149): reject inputs longer
than the capacity with a local WrongParamSize error, otherwise build a record
whose size is the input length and whose buffer is the input followed by zero
padding up to the capacity. -/
def wrap_buffer (buf : List Nat) (buf_size : Nat) : Except TssError TPM2B :=
  if buf.length > buf_size then
    .error (.local_error .WrongParamSize)
  else
    .ok { size := buf.length, buffer := buf ++ List.replicate (buf_size - buf.length) 0 }

/-- The logical content of a sized buffer: its first size bytes.  This is the
buffer[..size] read-back pattern used by get_random, hash and
policy_get_digest in the source. -/
def tpm2b_contents (b : TPM2B) : List Nat := b.buffer.take b.size

/-- Modelled from the spec: the no-session sentinel handle ESYS_TR_NONE from the
external bindings; its exact numeric value is irrelevant to every claim. -/
def ESYS_TR_NONE : Nat := 4095

/-- The marshalled PCR-selection list TPML_PCR_SELECTION: a count plus a 16-slot
array of selections.  A single TPMS_PCR_SELECTION entry is abstracted to a Nat
whose Default value is 0. -/
structure TPML_PCR_SELECTION where
  count : Nat
  pcrSelections : List Nat
  deriving DecidableEq, Repr

/-- The marshalling of creation_pcrs performed by create_primary_key and
create_key: a 16-slot array of default entries whose first len slots are the
input entries, with count equal to the input length. -/
def mk_creation_pcrs (creation_pcrs : List Nat) : TPML_PCR_SELECTION :=
  { count := creation_pcrs.length
    pcrSelections := creation_pcrs ++ List.replicate (16 - creation_pcrs.length) 0 }

/-- Foreign-interface events: one per external call the wrapper can make, plus
the release of the partially-initialized TCTI context in Context::new (the
drop of the local MBox owner on the early error return). -/
inductive FFIEvent
  | tctiInit
  | esysInit
  | tctiRelease
  | esysStartAuthSession
  | esysCreatePrimary (creation_pcrs : TPML_PCR_SELECTION)
  | esysCreate (creation_pcrs : TPML_PCR_SELECTION)
  | esysLoad
  | esysSign
  | esysVerifySignature
  | esysLoadExternal
  | esysReadPublic
  | esysFlushContext (handle : Nat)
  | esysContextSave
  | esysContextLoad
  | esysPcrRead
  | esysQuote
  | esysPolicyPCR
  | esysGetRandom (num_bytes : Nat)
  | esysTestParms
  | esysHash
  | esysPolicyGetDigest
  | esysTrSetAuth
  | esysTrGetName
  | esysTrSessSetAttributes
  | esysTrSessGetAttributes
  | tctiFinalize
  | esysFinalize
  deriving DecidableEq, Repr

/-- The Context structure (src/src/lib.rs lines 177-188): the owned ESYS and
TCTI resources (an Option models the Mbox that drop can take), the session
triple, and the set of currently open object handles. -/
structure Context where
  esys_context : Option Unit
  sessions : Nat × Nat × Nat
  tcti_context : Option Unit
  open_handles : Finset Nat
  deriving DecidableEq

/-- The result shape of an embedded command method: the returned Result, the
post-state of the mutable Context, and the emitted foreign-call events. -/
abbrev CmdResult (α : Type) := Except TssError α × Context × List FFIEvent

/-- Context::set_sessions: replace the whole session triple.  The getter
Context::sessions returns self.sessions and is embedded by the field
projection Context.sessions itself. -/
def Context.set_sessions (ctx : Context) (session_handles : Nat × Nat × Nat) : Context :=
  { ctx with sessions := session_handles }

/-- Context::new (lines 200-234).  Oracles: the raw status of
Tss2_TctiLdr_Initialize and of Esys_Initialize.  On a TCTI failure the
translated error is returned at once; on an ESYS failure the local MBox owner
of the already-initialized TCTI context is dropped on the early return, which
releases it (event tctiRelease); on success a Context with the all-NONE
session triple and an empty handle set is built. -/
def Context.new (tcti_rc : Nat) (esys_rc : Nat) :
    Except TssError Context × List FFIEvent :=
  if is_success tcti_rc then
    if is_success esys_rc then
      (.ok { esys_context := some ()
             sessions := (ESYS_TR_NONE, ESYS_TR_NONE, ESYS_TR_NONE)
             tcti_context := some ()
             open_handles := ∅ },
        [.tctiInit, .esysInit])
    else
      (.error (.tss_error esys_rc), [.tctiInit, .esysInit, .tctiRelease])
  else
    (.error (.tss_error tcti_rc), [.tctiInit])

/-- Context::start_auth_session (lines 248-288).  Oracles: the raw status of
Esys_StartAuthSession and the session handle it writes.  On success the
returned handle is inserted into open_handles. -/
def Context.start_auth_session (ctx : Context) (tpm_key bind : Nat)
    (nonce : List Nat) (session_type symmetric auth_hash : Nat)
    (rc sess_out : Nat) : CmdResult Nat :=
  match wrap_buffer nonce 64 with
  | .error e => (.error e, ctx, [])
  | .ok _nonce_caller =>
    let sess := sess_out
    if is_success rc then
      (.ok sess,
        { ctx with open_handles := insert sess ctx.open_handles },
        [.esysStartAuthSession])
    else
      (.error (.tss_error rc), ctx, [.esysStartAuthSession])

/-- Context::create_primary_key (lines 314-385).  Validation order follows the
source: auth_value (cap 64), initial_data (cap 256), outside_info (cap 64),
then the 16-entry cap on creation_pcrs; only then is Esys_CreatePrimary
invoked.  Oracles: the raw status and the primary key handle written by the
engine.  The four engine-owned output structures are freed on success.  On
success the returned handle is inserted into open_handles. -/
def Context.create_primary_key (ctx : Context) (primary_handle public : Nat)
    (auth_value initial_data outside_info : List Nat)
    (creation_pcrs : List Nat) (rc prim_key_handle_out : Nat) : CmdResult Nat :=
  match wrap_buffer auth_value 64 with
  | .error e => (.error e, ctx, [])
  | .ok _userAuth =>
  match wrap_buffer initial_data 256 with
  | .error e => (.error e, ctx, [])
  | .ok _data =>
  match wrap_buffer outside_info 64 with
  | .error e => (.error e, ctx, [])
  | .ok _outside_info =>
  if creation_pcrs.length > 16 then
    (.error (.local_error .WrongParamSize), ctx, [])
  else
    let creation_pcrs := mk_creation_pcrs creation_pcrs
    if is_success rc then
      (.ok prim_key_handle_out,
        { ctx with open_handles := insert prim_key_handle_out ctx.open_handles },
        [.esysCreatePrimary creation_pcrs])
    else
      (.error (.tss_error rc), ctx, [.esysCreatePrimary creation_pcrs])

/-- Context::create_key (lines 403-474).  Same validation sequence as
create_primary_key; the created key is returned as (private, public) blobs
(abstracted to Nat oracles) and no handle is registered. -/
def Context.create_key (ctx : Context) (parent_handle public : Nat)
    (auth_value initial_data outside_info : List Nat)
    (creation_pcrs : List Nat) (rc outprivate_out outpublic_out : Nat) :
    CmdResult (Nat × Nat) :=
  match wrap_buffer auth_value 64 with
  | .error e => (.error e, ctx, [])
  | .ok _userAuth =>
  match wrap_buffer initial_data 256 with
  | .error e => (.error e, ctx, [])
  | .ok _data =>
  match wrap_buffer outside_info 64 with
  | .error e => (.error e, ctx, [])
  | .ok _outside_info =>
  if creation_pcrs.length > 16 then
    (.error (.local_error .WrongParamSize), ctx, [])
  else
    let creation_pcrs := mk_creation_pcrs creation_pcrs
    if is_success rc then
      (.ok (outprivate_out, outpublic_out), ctx, [.esysCreate creation_pcrs])
    else
      (.error (.tss_error rc), ctx, [.esysCreate creation_pcrs])

/-- Context::load (lines 477-505).  Oracles: raw status and the new object
handle; on success the handle is inserted into open_handles. -/
def Context.load (ctx : Context) (parent_handle private_part public_part : Nat)
    (rc handle_out : Nat) : CmdResult Nat :=
  if is_success rc then
    (.ok handle_out,
      { ctx with open_handles := insert handle_out ctx.open_handles },
      [.esysLoad])
  else
    (.error (.tss_error rc), ctx, [.esysLoad])

/-- Context::sign (lines 516-547).  The digest is marshalled with capacity 64;
on engine success the engine-owned signature is converted by
Signature::try_from (utils module, not among the sources), modelled as an
oracle Except outcome. -/
def Context.sign (ctx : Context) (key_handle : Nat) (digest : List Nat)
    (scheme validation : Nat) (rc : Nat) (sig_conv : Except TssError Nat) :
    CmdResult Nat :=
  match wrap_buffer digest 64 with
  | .error e => (.error e, ctx, [])
  | .ok _digest =>
    if is_success rc then
      match sig_conv with
      | .ok s => (.ok s, ctx, [.esysSign])
      | .error e => (.error e, ctx, [.esysSign])
    else
      (.error (.tss_error rc), ctx, [.esysSign])

/-- Context::verify_signature (lines 558-587).  The digest is marshalled with
capacity 64; on success the engine-owned validation ticket is copied out. -/
def Context.verify_signature (ctx : Context) (key_handle : Nat)
    (digest : List Nat) (signature : Nat) (rc validation_out : Nat) :
    CmdResult Nat :=
  match wrap_buffer digest 64 with
  | .error e => (.error e, ctx, [])
  | .ok _digest =>
    if is_success rc then
      (.ok validation_out, ctx, [.esysVerifySignature])
    else
      (.error (.tss_error rc), ctx, [.esysVerifySignature])

/-- Context::load_external (lines 590-619).  On success the new handle is
inserted into open_handles. -/
def Context.load_external (ctx : Context)
    (private_part public_part hierarchy : Nat) (rc key_handle_out : Nat) :
    CmdResult Nat :=
  if is_success rc then
    (.ok key_handle_out,
      { ctx with open_handles := insert key_handle_out ctx.open_handles },
      [.esysLoadExternal])
  else
    (.error (.tss_error rc), ctx, [.esysLoadExternal])

/-- Context::load_external_public (lines 622-650).  On success the new handle
is inserted into open_handles. -/
def Context.load_external_public (ctx : Context) (public_part hierarchy : Nat)
    (rc key_handle_out : Nat) : CmdResult Nat :=
  if is_success rc then
    (.ok key_handle_out,
      { ctx with open_handles := insert key_handle_out ctx.open_handles },
      [.esysLoadExternal])
  else
    (.error (.tss_error rc), ctx, [.esysLoadExternal])

/-- Context::read_public (lines 653-682).  Stateless: the engine-owned public
area is copied out and the name buffers freed. -/
def Context.read_public (ctx : Context) (key_handle : Nat)
    (rc public_out : Nat) : CmdResult Nat :=
  if is_success rc then
    (.ok public_out, ctx, [.esysReadPublic])
  else
    (.error (.tss_error rc), ctx, [.esysReadPublic])

/-- Context::flush_context (lines 685-695).  On success the handle is removed
from open_handles. -/
def Context.flush_context (ctx : Context) (handle : Nat) (rc : Nat) :
    CmdResult Unit :=
  if is_success rc then
    (.ok (), { ctx with open_handles := ctx.open_handles.erase handle },
      [.esysFlushContext handle])
  else
    (.error (.tss_error rc), ctx, [.esysFlushContext handle])

/-- Context::context_save (lines 702-714).  On engine success the engine-owned
TPMS_CONTEXT is converted by TryInto into a TpmsContext (utils module, not
among the sources), modelled as an oracle Except outcome. -/
def Context.context_save (ctx : Context) (handle : Nat) (rc : Nat)
    (conv : Except TssError Nat) : CmdResult Nat :=
  if is_success rc then
    match conv with
    | .ok c => (.ok c, ctx, [.esysContextSave])
    | .error e => (.error e, ctx, [.esysContextSave])
  else
    (.error (.tss_error rc), ctx, [.esysContextSave])

/-- Context::context_load (lines 721-739).  The TpmsContext argument is first
converted by TPMS_CONTEXT::try_from (utils module, not among the sources),
modelled as an oracle Except outcome evaluated before the foreign call; on
engine success the new handle is inserted into open_handles. -/
def Context.context_load (ctx : Context)
    (context_conv : Except TssError Nat) (rc handle_out : Nat) :
    CmdResult Nat :=
  match context_conv with
  | .error e => (.error e, ctx, [])
  | .ok _native_context =>
    if is_success rc then
      (.ok handle_out,
        { ctx with open_handles := insert handle_out ctx.open_handles },
        [.esysContextLoad])
    else
      (.error (.tss_error rc), ctx, [.esysContextLoad])

/-- Context::pcr_read (lines 753-787).  Stateless; on engine success the two
engine-owned outputs are converted by PcrSelections::try_from and PcrData::new
(utils module, not among the sources), modelled as oracle Except outcomes
evaluated in source order. -/
def Context.pcr_read (ctx : Context) (pcr_selections : Nat) (rc : Nat)
    (pcr_update_counter : Nat) (selection_conv : Except TssError Nat)
    (data_conv : Except TssError Nat) : CmdResult (Nat × Nat × Nat) :=
  if is_success rc then
    match selection_conv with
    | .error e => (.error e, ctx, [.esysPcrRead])
    | .ok sel =>
      match data_conv with
      | .error e => (.error e, ctx, [.esysPcrRead])
      | .ok data => (.ok (pcr_update_counter, sel, data), ctx, [.esysPcrRead])
  else
    (.error (.tss_error rc), ctx, [.esysPcrRead])

/-- Context::quote (lines 796-831).  The qualifying data is marshalled with
capacity 64; on engine success the engine-owned signature is converted by
Signature::try_from, modelled as an oracle Except outcome. -/
def Context.quote (ctx : Context) (signing_key_handle : Nat)
    (qualifying_data : List Nat) (signing_scheme pcr_selection : Nat)
    (rc quoted_out : Nat) (sig_conv : Except TssError Nat) :
    CmdResult (Nat × Nat) :=
  match wrap_buffer qualifying_data 64 with
  | .error e => (.error e, ctx, [])
  | .ok _qualifying_data =>
    if is_success rc then
      match sig_conv with
      | .ok s => (.ok (quoted_out, s), ctx, [.esysQuote])
      | .error e => (.error e, ctx, [.esysQuote])
    else
      (.error (.tss_error rc), ctx, [.esysQuote])

/-- Context::policy_pcr (lines 852-876).  The PCR policy digest is marshalled
with capacity 64; stateless. -/
def Context.policy_pcr (ctx : Context) (policy_session : Nat)
    (pcr_policy_digest : List Nat) (pcr_selections : Nat) (rc : Nat) :
    CmdResult Unit :=
  match wrap_buffer pcr_policy_digest 64 with
  | .error e => (.error e, ctx, [])
  | .ok _pcr_digest =>
    if is_success rc then
      (.ok (), ctx, [.esysPolicyPCR])
    else
      (.error (.tss_error rc), ctx, [.esysPolicyPCR])

/-- The u16 narrowing of num_bytes in get_random: TryInto with the error
mapped to a local WrongParamSize. -/
def u16_try_from (n : Nat) : Except TssError Nat :=
  if n < 65536 then .ok n else .error (.local_error .WrongParamSize)

/-- Context::get_random (lines 883-908).  The request count is narrowed to the
u16 protocol field before the foreign call; on engine success the engine-owned
output buffer is copied to a vector which is truncated to the reported size
field. -/
def Context.get_random (ctx : Context) (num_bytes : Nat) (rc : Nat)
    (out : TPM2B) : CmdResult (List Nat) :=
  match u16_try_from num_bytes with
  | .error e => (.error e, ctx, [])
  | .ok n16 =>
    if is_success rc then
      (.ok (out.buffer.take out.size), ctx, [.esysGetRandom n16])
    else
      (.error (.tss_error rc), ctx, [.esysGetRandom n16])

/-- Context::test_parms (lines 915-937).  Stateless. -/
def Context.test_parms (ctx : Context) (parms : Nat) (rc : Nat) :
    CmdResult Unit :=
  if is_success rc then
    (.ok (), ctx, [.esysTestParms])
  else
    (.error (.tss_error rc), ctx, [.esysTestParms])

/-- Context::hash (lines 941-975).  The data is marshalled with capacity 1024;
on engine success the first size bytes of the engine-owned digest are copied
out and the validation ticket converted by HashcheckTicket::try_from (utils
module, not among the sources), modelled as an oracle Except outcome. -/
def Context.hash (ctx : Context) (data : List Nat)
    (hashing_algorithm hierarchy : Nat) (rc : Nat) (out_hash : TPM2B)
    (validation_conv : Except TssError Nat) : CmdResult (List Nat × Nat) :=
  match wrap_buffer data 1024 with
  | .error e => (.error e, ctx, [])
  | .ok _data =>
    if is_success rc then
      match validation_conv with
      | .ok v => (.ok (out_hash.buffer.take out_hash.size, v), ctx, [.esysHash])
      | .error e => (.error e, ctx, [.esysHash])
    else
      (.error (.tss_error rc), ctx, [.esysHash])

/-- Context::policy_get_digest (lines 979-1002).  On success the first size
bytes of the engine-owned digest are copied out. -/
def Context.policy_get_digest (ctx : Context) (policy_session : Nat)
    (rc : Nat) (policy_digest : TPM2B) : CmdResult (List Nat) :=
  if is_success rc then
    (.ok (policy_digest.buffer.take policy_digest.size), ctx,
      [.esysPolicyGetDigest])
  else
    (.error (.tss_error rc), ctx, [.esysPolicyGetDigest])

/-- Context::tr_set_auth (lines 1015-1024).  The auth value is marshalled with
capacity 64; stateless. -/
def Context.tr_set_auth (ctx : Context) (handle : Nat)
    (auth_value : List Nat) (rc : Nat) : CmdResult Unit :=
  match wrap_buffer auth_value 64 with
  | .error e => (.error e, ctx, [])
  | .ok _auth =>
    if is_success rc then
      (.ok (), ctx, [.esysTrSetAuth])
    else
      (.error (.tss_error rc), ctx, [.esysTrSetAuth])

/-- Context::tr_get_name (lines 1027-1038).  Stateless. -/
def Context.tr_get_name (ctx : Context) (handle : Nat) (rc name_out : Nat) :
    CmdResult Nat :=
  if is_success rc then
    (.ok name_out, ctx, [.esysTrGetName])
  else
    (.error (.tss_error rc), ctx, [.esysTrGetName])

/-- Context::tr_sess_set_attributes (lines 1041-1060).  Stateless. -/
def Context.tr_sess_set_attributes (ctx : Context) (handle : Nat)
    (flags mask : Nat) (rc : Nat) : CmdResult Unit :=
  if is_success rc then
    (.ok (), ctx, [.esysTrSessSetAttributes])
  else
    (.error (.tss_error rc), ctx, [.esysTrSessSetAttributes])

/-- Context::tr_sess_get_attributes (lines 1063-1072).  Stateless. -/
def Context.tr_sess_get_attributes (ctx : Context) (handle : Nat)
    (rc flags_out : Nat) : CmdResult Nat :=
  if is_success rc then
    (.ok flags_out, ctx, [.esysTrSessGetAttributes])
  else
    (.error (.tss_error rc), ctx, [.esysTrSessGetAttributes])

/-- The snapshot of the handle registry taken by Drop (open_handles.clone(),
iterated here in ascending order since HashSet iteration order is
unspecified). -/
def Context.handles_snapshot (ctx : Context) : List Nat :=
  ctx.open_handles.sort (· ≤ ·)

/-- impl Drop for Context (lines 1084-1105).  Oracle: the raw status each
Esys_FlushContext call would return for a given handle.  Every handle in a
snapshot of open_handles receives one flush_context call whose error, if any,
is only logged; then both resources are taken out of their owners and the TCTI
context is finalized, followed by the ESYS context. -/
def Context.drop (ctx : Context) (flush_rc : Nat → Nat) :
    Context × List FFIEvent :=
  let flushed := ctx.handles_snapshot.foldl
    (fun acc handle =>
      let r := Context.flush_context acc.1 handle (flush_rc handle)
      (r.2.1, acc.2 ++ r.2.2))
    (ctx, ([] : List FFIEvent))
  ({ flushed.1 with esys_context := none, tcti_context := none },
    flushed.2 ++ [.tctiFinalize, .esysFinalize])

/-- A freshly created context (the success result of Context::new), used as a
concrete state for witnesses. -/
def test_context : Context :=
  { esys_context := some ()
    sessions := (ESYS_TR_NONE, ESYS_TR_NONE, ESYS_TR_NONE)
    tcti_context := some ()
    open_handles := ∅ }

/-- One allocating call of the command surface together with its inputs and the
handle the engine would return; the engine status is taken as success (raw
status 0), matching a sequence of successful allocating calls. -/
inductive AllocCall
  | startAuthSession (tpm_key bind : Nat) (nonce : List Nat)
      (session_type symmetric auth_hash sess_out : Nat)
  | createPrimaryKey (primary_handle public : Nat)
      (auth_value initial_data outside_info : List Nat)
      (creation_pcrs : List Nat) (handle_out : Nat)
  | load (parent_handle private_part public_part handle_out : Nat)
  | loadExternal (private_part public_part hierarchy handle_out : Nat)
  | loadExternalPublic (public_part hierarchy handle_out : Nat)
  | contextLoad (handle_out : Nat)

/-- Dispatch an allocating call to the corresponding embedded method with a
successful engine status, returning the call result and the post-state. -/
def applyAlloc : AllocCall → Context → Except TssError Nat × Context
  | .startAuthSession tk b n st sym ah so, ctx =>
      let r := ctx.start_auth_session tk b n st sym ah 0 so
      (r.1, r.2.1)
  | .createPrimaryKey ph pub a i o p hout, ctx =>
      let r := ctx.create_primary_key ph pub a i o p 0 hout
      (r.1, r.2.1)
  | .load ph pr pu hout, ctx =>
      let r := ctx.load ph pr pu 0 hout
      (r.1, r.2.1)
  | .loadExternal pr pu hi hout, ctx =>
      let r := ctx.load_external pr pu hi 0 hout
      (r.1, r.2.1)
  | .loadExternalPublic pu hi hout, ctx =>
      let r := ctx.load_external_public pu hi 0 hout
      (r.1, r.2.1)
  | .contextLoad hout, ctx =>
      let r := ctx.context_load (.ok 0) 0 hout
      (r.1, r.2.1)

/-- An allocating call succeeds (its local validation passes, the engine status
being success already) and returns a fixed handle, whatever the state. -/
def alloc_succeeds (c : AllocCall) : Prop :=
  ∃ h, ∀ ctx : Context, (applyAlloc c ctx).1 = .ok h

/-- A sequence of allocating calls, each immediately followed by a successful
flush_context of the handle it returned. -/
def run_alloc_flush_pairs : List AllocCall → Context → Context
  | [], ctx => ctx
  | c :: rest, ctx =>
      match applyAlloc c ctx with
      | (.ok h, ctx2) => run_alloc_flush_pairs rest ((ctx2.flush_context h 0).2.1)
      | (.error _, ctx2) => run_alloc_flush_pairs rest ctx2

/-
Helper lemmas.  First the teardown trace machinery, then per-method facts
about how each command changes (or does not change) the Context state.
-/

theorem wrap_buffer_error (b : List Nat) (N : Nat) (e : TssError)
    (h : wrap_buffer b N = .error e) : e = .local_error .WrongParamSize := by
  unfold wrap_buffer at h
  split at h
  · injection h with h1
    exact h1.symm
  · simp at h

theorem wrap_buffer_ok (b : List Nat) (N : Nat) (h : b.length ≤ N) :
    wrap_buffer b N =
      .ok { size := b.length, buffer := b ++ List.replicate (N - b.length) 0 } := by
  unfold wrap_buffer
  rw [if_neg (by omega)]

theorem flush_context_events (ctx : Context) (h rc : Nat) :
    (ctx.flush_context h rc).2.2 = [.esysFlushContext h] := by
  unfold Context.flush_context
  split <;> rfl

theorem drop_foldl_trace (l : List Nat) (ctx : Context) (tr : List FFIEvent)
    (f : Nat → Nat) :
    (l.foldl
      (fun acc handle =>
        let r := Context.flush_context acc.1 handle (f handle)
        (r.2.1, acc.2 ++ r.2.2))
      (ctx, tr)).2 = tr ++ l.map FFIEvent.esysFlushContext := by
  induction l generalizing ctx tr with
  | nil => simp
  | cons h t ih =>
    simp only [List.foldl_cons, List.map_cons]
    rw [ih, flush_context_events]
    simp

theorem drop_trace (ctx : Context) (f : Nat → Nat) :
    (ctx.drop f).2 =
      ctx.handles_snapshot.map FFIEvent.esysFlushContext ++
        [.tctiFinalize, .esysFinalize] := by
  simp only [Context.drop]
  rw [drop_foldl_trace]
  simp

theorem snapshot_of_empty (ctx : Context) (h : ctx.open_handles = ∅) :
    ctx.handles_snapshot = [] := by
  unfold Context.handles_snapshot
  rw [h]
  exact Finset.sort_empty _

theorem snapshot_flush_count (ctx : Context) (h : Nat) :
    (ctx.handles_snapshot.map FFIEvent.esysFlushContext).count
        (FFIEvent.esysFlushContext h) =
      if h ∈ ctx.open_handles then 1 else 0 := by
  rw [List.count_map_of_injective _ _ (fun a b hab => by cases hab; rfl) h]
  by_cases hm : h ∈ ctx.open_handles
  · rw [if_pos hm]
    exact List.count_eq_one_of_mem (Finset.sort_nodup _ _)
      (Finset.mem_sort _ |>.mpr hm)
  · rw [if_neg hm]
    exact List.count_eq_zero_of_not_mem
      (fun hc => hm ((Finset.mem_sort _).mp hc))

theorem drop_flush_count (ctx : Context) (f : Nat → Nat) (h : Nat) :
    (ctx.drop f).2.count (FFIEvent.esysFlushContext h) =
      if h ∈ ctx.open_handles then 1 else 0 := by
  rw [drop_trace, List.count_append, snapshot_flush_count]
  simp

theorem start_auth_session_err (ctx : Context) (tk b : Nat) (n : List Nat)
    (st sym ah rc so : Nat) (e : TssError)
    (h : (ctx.start_auth_session tk b n st sym ah rc so).1 = .error e) :
    (ctx.start_auth_session tk b n st sym ah rc so).2.1 = ctx := by
  unfold Context.start_auth_session at *
  cases hw : wrap_buffer n 64 with
  | error e2 => rfl
  | ok v =>
    rw [hw] at h
    by_cases hrc : is_success rc
    · simp [hrc] at h
    · simp [hrc]

theorem start_auth_session_ok (ctx : Context) (tk b : Nat) (n : List Nat)
    (st sym ah rc so h : Nat)
    (hok : (ctx.start_auth_session tk b n st sym ah rc so).1 = .ok h) :
    (ctx.start_auth_session tk b n st sym ah rc so).2.1.open_handles =
      insert h ctx.open_handles := by
  unfold Context.start_auth_session at *
  cases hw : wrap_buffer n 64 with
  | error e2 => rw [hw] at hok; simp at hok
  | ok v =>
    rw [hw] at hok
    by_cases hrc : is_success rc
    · simp only [hrc, if_true] at hok ⊢
      simp at hok
      rw [hok]
    · simp [hrc] at hok

theorem create_primary_key_err (ctx : Context) (ph pub : Nat)
    (a i o : List Nat) (p : List Nat) (rc hout : Nat) (e : TssError)
    (h : (ctx.create_primary_key ph pub a i o p rc hout).1 = .error e) :
    (ctx.create_primary_key ph pub a i o p rc hout).2.1 = ctx := by
  unfold Context.create_primary_key at *
  cases hw1 : wrap_buffer a 64 with
  | error e2 => rfl
  | ok v1 =>
    rw [hw1] at h
    cases hw2 : wrap_buffer i 256 with
    | error e2 => rfl
    | ok v2 =>
      rw [hw2] at h
      cases hw3 : wrap_buffer o 64 with
      | error e2 => rfl
      | ok v3 =>
        rw [hw3] at h
        by_cases h16 : p.length > 16
        · rw [if_pos h16]
        · rw [if_neg h16] at h ⊢
          by_cases hrc : is_success rc
          · simp [hrc] at h
          · simp [hrc]

theorem create_primary_key_ok (ctx : Context) (ph pub : Nat)
    (a i o : List Nat) (p : List Nat) (rc hout h : Nat)
    (hok : (ctx.create_primary_key ph pub a i o p rc hout).1 = .ok h) :
    (ctx.create_primary_key ph pub a i o p rc hout).2.1.open_handles =
      insert h ctx.open_handles := by
  unfold Context.create_primary_key at *
  cases hw1 : wrap_buffer a 64 with
  | error e2 => rw [hw1] at hok; simp at hok
  | ok v1 =>
    rw [hw1] at hok
    cases hw2 : wrap_buffer i 256 with
    | error e2 => rw [hw2] at hok; simp at hok
    | ok v2 =>
      rw [hw2] at hok
      cases hw3 : wrap_buffer o 64 with
      | error e2 => rw [hw3] at hok; simp at hok
      | ok v3 =>
        rw [hw3] at hok
        by_cases h16 : p.length > 16
        · rw [if_pos h16] at hok
          simp at hok
        · rw [if_neg h16] at hok ⊢
          by_cases hrc : is_success rc
          · simp only [hrc, if_true] at hok ⊢
            simp at hok
            rw [hok]
          · simp [hrc] at hok

theorem load_err (ctx : Context) (ph pr pu rc hout : Nat) (e : TssError)
    (h : (ctx.load ph pr pu rc hout).1 = .error e) :
    (ctx.load ph pr pu rc hout).2.1 = ctx := by
  unfold Context.load at *
  by_cases hrc : is_success rc
  · simp [hrc] at h
  · simp [hrc]

theorem load_ok (ctx : Context) (ph pr pu rc hout h : Nat)
    (hok : (ctx.load ph pr pu rc hout).1 = .ok h) :
    (ctx.load ph pr pu rc hout).2.1.open_handles =
      insert h ctx.open_handles := by
  unfold Context.load at *
  by_cases hrc : is_success rc
  · simp only [hrc, if_true] at hok ⊢
    simp at hok
    rw [hok]
  · simp [hrc] at hok

theorem load_external_err (ctx : Context) (pr pu hi rc hout : Nat)
    (e : TssError) (h : (ctx.load_external pr pu hi rc hout).1 = .error e) :
    (ctx.load_external pr pu hi rc hout).2.1 = ctx := by
  unfold Context.load_external at *
  by_cases hrc : is_success rc
  · simp [hrc] at h
  · simp [hrc]

theorem load_external_ok (ctx : Context) (pr pu hi rc hout h : Nat)
    (hok : (ctx.load_external pr pu hi rc hout).1 = .ok h) :
    (ctx.load_external pr pu hi rc hout).2.1.open_handles =
      insert h ctx.open_handles := by
  unfold Context.load_external at *
  by_cases hrc : is_success rc
  · simp only [hrc, if_true] at hok ⊢
    simp at hok
    rw [hok]
  · simp [hrc] at hok

theorem load_external_public_err (ctx : Context) (pu hi rc hout : Nat)
    (e : TssError)
    (h : (ctx.load_external_public pu hi rc hout).1 = .error e) :
    (ctx.load_external_public pu hi rc hout).2.1 = ctx := by
  unfold Context.load_external_public at *
  by_cases hrc : is_success rc
  · simp [hrc] at h
  · simp [hrc]

theorem load_external_public_ok (ctx : Context) (pu hi rc hout h : Nat)
    (hok : (ctx.load_external_public pu hi rc hout).1 = .ok h) :
    (ctx.load_external_public pu hi rc hout).2.1.open_handles =
      insert h ctx.open_handles := by
  unfold Context.load_external_public at *
  by_cases hrc : is_success rc
  · simp only [hrc, if_true] at hok ⊢
    simp at hok
    rw [hok]
  · simp [hrc] at hok

theorem context_load_err (ctx : Context) (conv : Except TssError Nat)
    (rc hout : Nat) (e : TssError)
    (h : (ctx.context_load conv rc hout).1 = .error e) :
    (ctx.context_load conv rc hout).2.1 = ctx := by
  unfold Context.context_load at *
  cases conv with
  | error e2 => rfl
  | ok v =>
    by_cases hrc : is_success rc
    · simp [hrc] at h
    · simp [hrc]

theorem context_load_ok (ctx : Context) (conv : Except TssError Nat)
    (rc hout h : Nat) (hok : (ctx.context_load conv rc hout).1 = .ok h) :
    (ctx.context_load conv rc hout).2.1.open_handles =
      insert h ctx.open_handles := by
  unfold Context.context_load at *
  cases conv with
  | error e2 => simp at hok
  | ok v =>
    by_cases hrc : is_success rc
    · simp only [hrc, if_true] at hok ⊢
      simp at hok
      rw [hok]
    · simp [hrc] at hok

theorem flush_context_err (ctx : Context) (hd rc : Nat) (e : TssError)
    (h : (ctx.flush_context hd rc).1 = .error e) :
    (ctx.flush_context hd rc).2.1 = ctx := by
  unfold Context.flush_context at *
  by_cases hrc : is_success rc
  · simp [hrc] at h
  · simp [hrc]

theorem flush_context_ok (ctx : Context) (hd rc : Nat)
    (hok : (ctx.flush_context hd rc).1 = .ok ()) :
    (ctx.flush_context hd rc).2.1.open_handles =
      ctx.open_handles.erase hd := by
  unfold Context.flush_context at *
  by_cases hrc : is_success rc
  · simp [hrc]
  · simp [hrc] at hok

theorem create_key_state (ctx : Context) (ph pub : Nat) (a i o : List Nat)
    (p : List Nat) (rc opv opb : Nat) :
    (ctx.create_key ph pub a i o p rc opv opb).2.1 = ctx := by
  unfold Context.create_key
  cases wrap_buffer a 64 with
  | error e => rfl
  | ok v1 =>
    cases wrap_buffer i 256 with
    | error e => rfl
    | ok v2 =>
      cases wrap_buffer o 64 with
      | error e => rfl
      | ok v3 =>
        by_cases h16 : p.length > 16
        · rw [if_pos h16]
        · rw [if_neg h16]
          by_cases hrc : is_success rc
          · simp [hrc]
          · simp [hrc]

theorem sign_state (ctx : Context) (kh : Nat) (d : List Nat) (sc va rc : Nat)
    (conv : Except TssError Nat) :
    (ctx.sign kh d sc va rc conv).2.1 = ctx := by
  unfold Context.sign
  cases wrap_buffer d 64 with
  | error e => rfl
  | ok v =>
    by_cases hrc : is_success rc
    · simp only [hrc, if_true]
      cases conv <;> rfl
    · simp [hrc]

theorem verify_signature_state (ctx : Context) (kh : Nat) (d : List Nat)
    (sg rc vo : Nat) :
    (ctx.verify_signature kh d sg rc vo).2.1 = ctx := by
  unfold Context.verify_signature
  cases wrap_buffer d 64 with
  | error e => rfl
  | ok v =>
    by_cases hrc : is_success rc
    · simp [hrc]
    · simp [hrc]

theorem read_public_state (ctx : Context) (kh rc po : Nat) :
    (ctx.read_public kh rc po).2.1 = ctx := by
  unfold Context.read_public
  split <;> rfl

theorem context_save_state (ctx : Context) (hd rc : Nat)
    (conv : Except TssError Nat) :
    (ctx.context_save hd rc conv).2.1 = ctx := by
  unfold Context.context_save
  by_cases hrc : is_success rc
  · simp only [hrc, if_true]
    cases conv <;> rfl
  · simp [hrc]

theorem pcr_read_state (ctx : Context) (ps rc puc : Nat)
    (c1 c2 : Except TssError Nat) :
    (ctx.pcr_read ps rc puc c1 c2).2.1 = ctx := by
  unfold Context.pcr_read
  by_cases hrc : is_success rc
  · simp only [hrc, if_true]
    cases c1 with
    | error e => rfl
    | ok v => cases c2 <;> rfl
  · simp [hrc]

theorem quote_state (ctx : Context) (skh : Nat) (qd : List Nat)
    (ss psel rc qo : Nat) (conv : Except TssError Nat) :
    (ctx.quote skh qd ss psel rc qo conv).2.1 = ctx := by
  unfold Context.quote
  cases wrap_buffer qd 64 with
  | error e => rfl
  | ok v =>
    by_cases hrc : is_success rc
    · simp only [hrc, if_true]
      cases conv <;> rfl
    · simp [hrc]

theorem policy_pcr_state (ctx : Context) (ps : Nat) (pd : List Nat)
    (psel rc : Nat) :
    (ctx.policy_pcr ps pd psel rc).2.1 = ctx := by
  unfold Context.policy_pcr
  cases wrap_buffer pd 64 with
  | error e => rfl
  | ok v =>
    by_cases hrc : is_success rc
    · simp [hrc]
    · simp [hrc]

theorem get_random_state (ctx : Context) (n rc : Nat) (out : TPM2B) :
    (ctx.get_random n rc out).2.1 = ctx := by
  unfold Context.get_random
  cases u16_try_from n with
  | error e => rfl
  | ok v =>
    by_cases hrc : is_success rc
    · simp [hrc]
    · simp [hrc]

theorem test_parms_state (ctx : Context) (pm rc : Nat) :
    (ctx.test_parms pm rc).2.1 = ctx := by
  unfold Context.test_parms
  split <;> rfl

theorem hash_state (ctx : Context) (d : List Nat) (ha hi rc : Nat)
    (oh : TPM2B) (conv : Except TssError Nat) :
    (ctx.hash d ha hi rc oh conv).2.1 = ctx := by
  unfold Context.hash
  cases wrap_buffer d 1024 with
  | error e => rfl
  | ok v =>
    by_cases hrc : is_success rc
    · simp only [hrc, if_true]
      cases conv <;> rfl
    · simp [hrc]

theorem policy_get_digest_state (ctx : Context) (ps rc : Nat) (pd : TPM2B) :
    (ctx.policy_get_digest ps rc pd).2.1 = ctx := by
  unfold Context.policy_get_digest
  split <;> rfl

theorem tr_set_auth_state (ctx : Context) (hd : Nat) (av : List Nat)
    (rc : Nat) :
    (ctx.tr_set_auth hd av rc).2.1 = ctx := by
  unfold Context.tr_set_auth
  cases wrap_buffer av 64 with
  | error e => rfl
  | ok v =>
    by_cases hrc : is_success rc
    · simp [hrc]
    · simp [hrc]

theorem tr_get_name_state (ctx : Context) (hd rc no : Nat) :
    (ctx.tr_get_name hd rc no).2.1 = ctx := by
  unfold Context.tr_get_name
  split <;> rfl

theorem tr_sess_set_attributes_state (ctx : Context) (hd fl mk rc : Nat) :
    (ctx.tr_sess_set_attributes hd fl mk rc).2.1 = ctx := by
  unfold Context.tr_sess_set_attributes
  split <;> rfl

theorem tr_sess_get_attributes_state (ctx : Context) (hd rc fo : Nat) :
    (ctx.tr_sess_get_attributes hd rc fo).2.1 = ctx := by
  unfold Context.tr_sess_get_attributes
  split <;> rfl

theorem alloc_ok_insert (c : AllocCall) (ctx : Context) (h : Nat)
    (hok : (applyAlloc c ctx).1 = .ok h) :
    (applyAlloc c ctx).2.open_handles = insert h ctx.open_handles := by
  cases c with
  | startAuthSession tk b n st sym ah so =>
    simp only [applyAlloc] at hok ⊢
    exact start_auth_session_ok ctx tk b n st sym ah 0 so h hok
  | createPrimaryKey ph pub a i o p hout =>
    simp only [applyAlloc] at hok ⊢
    exact create_primary_key_ok ctx ph pub a i o p 0 hout h hok
  | load ph pr pu hout =>
    simp only [applyAlloc] at hok ⊢
    exact load_ok ctx ph pr pu 0 hout h hok
  | loadExternal pr pu hi hout =>
    simp only [applyAlloc] at hok ⊢
    exact load_external_ok ctx pr pu hi 0 hout h hok
  | loadExternalPublic pu hi hout =>
    simp only [applyAlloc] at hok ⊢
    exact load_external_public_ok ctx pu hi 0 hout h hok
  | contextLoad hout =>
    simp only [applyAlloc] at hok ⊢
    exact context_load_ok ctx (.ok 0) 0 hout h hok

theorem run_pairs_empty (cs : List AllocCall) :
    ∀ ctx : Context, ctx.open_handles = ∅ →
      (∀ c ∈ cs, alloc_succeeds c) →
      (run_alloc_flush_pairs cs ctx).open_handles = ∅ := by
  induction cs with
  | nil =>
    intro ctx hE _
    exact hE
  | cons c rest ih =>
    intro ctx hE hall
    obtain ⟨h, hh⟩ := hall c (List.mem_cons_self c rest)
    have h1 : (applyAlloc c ctx).1 = .ok h := hh ctx
    have h2 : (applyAlloc c ctx).2.open_handles = insert h ctx.open_handles :=
      alloc_ok_insert c ctx h h1
    rcases hA : applyAlloc c ctx with ⟨r, ctx2⟩
    rw [hA] at h1 h2
    simp only at h1 h2
    subst h1
    have hflush : ((ctx2.flush_context h 0).2.1).open_handles =
        ctx2.open_handles.erase h := flush_context_ok ctx2 h 0 rfl
    simp only [run_alloc_flush_pairs, hA]
    apply ih
    · rw [hflush, h2, hE]
      exact Finset.erase_insert (Finset.not_mem_empty h)
    · intro c2 hc2
      exact hall c2 (List.mem_cons_of_mem c hc2)

/-
Claim theorems.
-/

/-- C1: for every Context command method and every input, if the method
returns an error — whether a local validation error, a conversion error, or
an engine failure reported by the status translator — then the post-state of
the Context (its open_handles set and its sessions tuple included) is exactly
the pre-state: state is mutated only after the status translator reports
success.  One conjunct per command method of the source, in source order. -/
theorem C1_failed_command_preserves_state :
    (∀ (ctx : Context) (tk b : Nat) (n : List Nat) (st sym ah rc so : Nat)
        (e : TssError),
        (ctx.start_auth_session tk b n st sym ah rc so).1 = .error e →
        (ctx.start_auth_session tk b n st sym ah rc so).2.1 = ctx) ∧
    (∀ (ctx : Context) (ph pub : Nat) (a i o p : List Nat) (rc hout : Nat)
        (e : TssError),
        (ctx.create_primary_key ph pub a i o p rc hout).1 = .error e →
        (ctx.create_primary_key ph pub a i o p rc hout).2.1 = ctx) ∧
    (∀ (ctx : Context) (ph pub : Nat) (a i o p : List Nat)
        (rc opv opb : Nat) (e : TssError),
        (ctx.create_key ph pub a i o p rc opv opb).1 = .error e →
        (ctx.create_key ph pub a i o p rc opv opb).2.1 = ctx) ∧
    (∀ (ctx : Context) (ph pr pu rc hout : Nat) (e : TssError),
        (ctx.load ph pr pu rc hout).1 = .error e →
        (ctx.load ph pr pu rc hout).2.1 = ctx) ∧
    (∀ (ctx : Context) (kh : Nat) (d : List Nat) (sc va rc : Nat)
        (conv : Except TssError Nat) (e : TssError),
        (ctx.sign kh d sc va rc conv).1 = .error e →
        (ctx.sign kh d sc va rc conv).2.1 = ctx) ∧
    (∀ (ctx : Context) (kh : Nat) (d : List Nat) (sg rc vo : Nat)
        (e : TssError),
        (ctx.verify_signature kh d sg rc vo).1 = .error e →
        (ctx.verify_signature kh d sg rc vo).2.1 = ctx) ∧
    (∀ (ctx : Context) (pr pu hi rc hout : Nat) (e : TssError),
        (ctx.load_external pr pu hi rc hout).1 = .error e →
        (ctx.load_external pr pu hi rc hout).2.1 = ctx) ∧
    (∀ (ctx : Context) (pu hi rc hout : Nat) (e : TssError),
        (ctx.load_external_public pu hi rc hout).1 = .error e →
        (ctx.load_external_public pu hi rc hout).2.1 = ctx) ∧
    (∀ (ctx : Context) (kh rc po : Nat) (e : TssError),
        (ctx.read_public kh rc po).1 = .error e →
        (ctx.read_public kh rc po).2.1 = ctx) ∧
    (∀ (ctx : Context) (hd rc : Nat) (e : TssError),
        (ctx.flush_context hd rc).1 = .error e →
        (ctx.flush_context hd rc).2.1 = ctx) ∧
    (∀ (ctx : Context) (hd rc : Nat) (conv : Except TssError Nat)
        (e : TssError),
        (ctx.context_save hd rc conv).1 = .error e →
        (ctx.context_save hd rc conv).2.1 = ctx) ∧
    (∀ (ctx : Context) (conv : Except TssError Nat) (rc hout : Nat)
        (e : TssError),
        (ctx.context_load conv rc hout).1 = .error e →
        (ctx.context_load conv rc hout).2.1 = ctx) ∧
    (∀ (ctx : Context) (ps rc puc : Nat) (c1 c2 : Except TssError Nat)
        (e : TssError),
        (ctx.pcr_read ps rc puc c1 c2).1 = .error e →
        (ctx.pcr_read ps rc puc c1 c2).2.1 = ctx) ∧
    (∀ (ctx : Context) (skh : Nat) (qd : List Nat) (ss psel rc qo : Nat)
        (conv : Except TssError Nat) (e : TssError),
        (ctx.quote skh qd ss psel rc qo conv).1 = .error e →
        (ctx.quote skh qd ss psel rc qo conv).2.1 = ctx) ∧
    (∀ (ctx : Context) (ps : Nat) (pd : List Nat) (psel rc : Nat)
        (e : TssError),
        (ctx.policy_pcr ps pd psel rc).1 = .error e →
        (ctx.policy_pcr ps pd psel rc).2.1 = ctx) ∧
    (∀ (ctx : Context) (n rc : Nat) (out : TPM2B) (e : TssError),
        (ctx.get_random n rc out).1 = .error e →
        (ctx.get_random n rc out).2.1 = ctx) ∧
    (∀ (ctx : Context) (pm rc : Nat) (e : TssError),
        (ctx.test_parms pm rc).1 = .error e →
        (ctx.test_parms pm rc).2.1 = ctx) ∧
    (∀ (ctx : Context) (d : List Nat) (ha hi rc : Nat) (oh : TPM2B)
        (conv : Except TssError Nat) (e : TssError),
        (ctx.hash d ha hi rc oh conv).1 = .error e →
        (ctx.hash d ha hi rc oh conv).2.1 = ctx) ∧
    (∀ (ctx : Context) (ps rc : Nat) (pd : TPM2B) (e : TssError),
        (ctx.policy_get_digest ps rc pd).1 = .error e →
        (ctx.policy_get_digest ps rc pd).2.1 = ctx) ∧
    (∀ (ctx : Context) (hd : Nat) (av : List Nat) (rc : Nat) (e : TssError),
        (ctx.tr_set_auth hd av rc).1 = .error e →
        (ctx.tr_set_auth hd av rc).2.1 = ctx) ∧
    (∀ (ctx : Context) (hd rc no : Nat) (e : TssError),
        (ctx.tr_get_name hd rc no).1 = .error e →
        (ctx.tr_get_name hd rc no).2.1 = ctx) ∧
    (∀ (ctx : Context) (hd fl mk rc : Nat) (e : TssError),
        (ctx.tr_sess_set_attributes hd fl mk rc).1 = .error e →
        (ctx.tr_sess_set_attributes hd fl mk rc).2.1 = ctx) ∧
    (∀ (ctx : Context) (hd rc fo : Nat) (e : TssError),
        (ctx.tr_sess_get_attributes hd rc fo).1 = .error e →
        (ctx.tr_sess_get_attributes hd rc fo).2.1 = ctx) :=
  ⟨start_auth_session_err,
   create_primary_key_err,
   fun ctx ph pub a i o p rc opv opb e _ =>
     create_key_state ctx ph pub a i o p rc opv opb,
   load_err,
   fun ctx kh d sc va rc conv e _ => sign_state ctx kh d sc va rc conv,
   fun ctx kh d sg rc vo e _ => verify_signature_state ctx kh d sg rc vo,
   load_external_err,
   load_external_public_err,
   fun ctx kh rc po e _ => read_public_state ctx kh rc po,
   flush_context_err,
   fun ctx hd rc conv e _ => context_save_state ctx hd rc conv,
   context_load_err,
   fun ctx ps rc puc c1 c2 e _ => pcr_read_state ctx ps rc puc c1 c2,
   fun ctx skh qd ss psel rc qo conv e _ =>
     quote_state ctx skh qd ss psel rc qo conv,
   fun ctx ps pd psel rc e _ => policy_pcr_state ctx ps pd psel rc,
   fun ctx n rc out e _ => get_random_state ctx n rc out,
   fun ctx pm rc e _ => test_parms_state ctx pm rc,
   fun ctx d ha hi rc oh conv e _ => hash_state ctx d ha hi rc oh conv,
   fun ctx ps rc pd e _ => policy_get_digest_state ctx ps rc pd,
   fun ctx hd av rc e _ => tr_set_auth_state ctx hd av rc,
   fun ctx hd rc no e _ => tr_get_name_state ctx hd rc no,
   fun ctx hd fl mk rc e _ => tr_sess_set_attributes_state ctx hd fl mk rc,
   fun ctx hd rc fo e _ => tr_sess_get_attributes_state ctx hd rc fo⟩

/-- C1 witness: a concrete failing start_auth_session (engine status 1)
leaves the concrete context unchanged. -/
theorem C1_witness :
    (test_context.start_auth_session 0 0 [] 0 0 0 1 5).2.1 = test_context :=
  C1_failed_command_preserves_state.1 test_context 0 0 [] 0 0 0 1 5
    (.tss_error 1) rfl

/-- C2: for every byte sequence b and capacity N, if b fits, marshalling
produces a record whose size is the length of b, whose first bytes are b and
whose remaining bytes are the zero padding, so reading back the logical
content yields exactly b; if b does not fit, marshalling fails with a local
WrongParamSize error and produces nothing. -/
theorem C2_marshal_roundtrip (b : List Nat) (N : Nat) :
    (b.length ≤ N →
      wrap_buffer b N =
        .ok { size := b.length, buffer := b ++ List.replicate (N - b.length) 0 } ∧
      tpm2b_contents
        { size := b.length, buffer := b ++ List.replicate (N - b.length) 0 } = b) ∧
    (N < b.length →
      wrap_buffer b N = .error (.local_error .WrongParamSize)) := by
  constructor
  · intro h
    constructor
    · exact wrap_buffer_ok b N h
    · unfold tpm2b_contents
      exact List.take_left b _
  · intro h
    unfold wrap_buffer
    rw [if_pos (by omega)]

/-- C2 witness: a concrete 3-byte input marshalled into a capacity-64 field. -/
theorem C2_witness :
    wrap_buffer [1, 2, 3] 64 =
      .ok { size := 3, buffer := [1, 2, 3] ++ List.replicate 61 0 } :=
  ((C2_marshal_roundtrip [1, 2, 3] 64).1 (by decide)).1

/-- C3 counterexample: on a concrete context the teardown trace finalizes the
TCTI (transport) resource strictly before the ESYS (engine) resource, so
teardown does not finalize the engine resource before the transport
resource as the claim states. -/
theorem C3_counterexample :
    ¬ ((test_context.drop (fun _ => 0)).2.indexOf FFIEvent.esysFinalize <
        (test_context.drop (fun _ => 0)).2.indexOf FFIEvent.tctiFinalize) := by
  rw [drop_trace, snapshot_of_empty test_context rfl]
  decide

/-- C3 (amended): creation initializes the transport resource before the
engine resource, and teardown finalizes them in the SAME relative order —
transport before engine, after the handle flushes — not the reverse of the
creation order. -/
theorem C3_teardown_order :
    (Context.new 0 0).2 = [FFIEvent.tctiInit, FFIEvent.esysInit] ∧
    ∀ (ctx : Context) (f : Nat → Nat),
      (ctx.drop f).2 =
        ctx.handles_snapshot.map FFIEvent.esysFlushContext ++
          [FFIEvent.tctiFinalize, FFIEvent.esysFinalize] :=
  ⟨rfl, drop_trace⟩

/-- C4: teardown issues exactly one flush attempt per handle open at drop
time (the snapshot of open_handles), then — whatever the flush outcomes —
finalizes both resources; a context dropped with zero open handles attempts
no flush. -/
theorem C4_teardown_flush_exactly_once :
    ∀ (ctx : Context) (f : Nat → Nat),
      (∀ h, (ctx.drop f).2.count (FFIEvent.esysFlushContext h) =
          if h ∈ ctx.open_handles then 1 else 0) ∧
      (ctx.drop f).2 =
        ctx.handles_snapshot.map FFIEvent.esysFlushContext ++
          [FFIEvent.tctiFinalize, FFIEvent.esysFinalize] ∧
      (ctx.open_handles = ∅ →
        (ctx.drop f).2 = [FFIEvent.tctiFinalize, FFIEvent.esysFinalize]) := by
  intro ctx f
  refine ⟨drop_flush_count ctx f, drop_trace ctx f, ?_⟩
  intro h0
  rw [drop_trace, snapshot_of_empty ctx h0]
  rfl

/-- C4 witness: dropping a freshly created context (no open handles) attempts
no flush and still finalizes both resources. -/
theorem C4_witness :
    (test_context.drop (fun _ => 0)).2 =
      [FFIEvent.tctiFinalize, FFIEvent.esysFinalize] :=
  (C4_teardown_flush_exactly_once test_context (fun _ => 0)).2.2 rfl

/-- C5: every successful allocating call inserts exactly its returned handle
into open_handles; a successful flush_context removes the flushed handle; and
any sequence of successful allocating calls, each immediately followed by a
successful flush of the handle it returned, leaves an initially empty
registry empty. -/
theorem C5_registry_tracks_allocations :
    (∀ (ctx : Context) (tk b : Nat) (n : List Nat) (st sym ah rc so h : Nat),
        (ctx.start_auth_session tk b n st sym ah rc so).1 = .ok h →
        (ctx.start_auth_session tk b n st sym ah rc so).2.1.open_handles =
          insert h ctx.open_handles) ∧
    (∀ (ctx : Context) (ph pub : Nat) (a i o p : List Nat) (rc hout h : Nat),
        (ctx.create_primary_key ph pub a i o p rc hout).1 = .ok h →
        (ctx.create_primary_key ph pub a i o p rc hout).2.1.open_handles =
          insert h ctx.open_handles) ∧
    (∀ (ctx : Context) (ph pr pu rc hout h : Nat),
        (ctx.load ph pr pu rc hout).1 = .ok h →
        (ctx.load ph pr pu rc hout).2.1.open_handles =
          insert h ctx.open_handles) ∧
    (∀ (ctx : Context) (pr pu hi rc hout h : Nat),
        (ctx.load_external pr pu hi rc hout).1 = .ok h →
        (ctx.load_external pr pu hi rc hout).2.1.open_handles =
          insert h ctx.open_handles) ∧
    (∀ (ctx : Context) (pu hi rc hout h : Nat),
        (ctx.load_external_public pu hi rc hout).1 = .ok h →
        (ctx.load_external_public pu hi rc hout).2.1.open_handles =
          insert h ctx.open_handles) ∧
    (∀ (ctx : Context) (conv : Except TssError Nat) (rc hout h : Nat),
        (ctx.context_load conv rc hout).1 = .ok h →
        (ctx.context_load conv rc hout).2.1.open_handles =
          insert h ctx.open_handles) ∧
    (∀ (ctx : Context) (hd rc : Nat),
        (ctx.flush_context hd rc).1 = .ok () →
        (ctx.flush_context hd rc).2.1.open_handles =
          ctx.open_handles.erase hd) ∧
    (∀ (cs : List AllocCall) (ctx : Context),
        ctx.open_handles = ∅ →
        (∀ c ∈ cs, alloc_succeeds c) →
        (run_alloc_flush_pairs cs ctx).open_handles = ∅) :=
  ⟨start_auth_session_ok, create_primary_key_ok, load_ok, load_external_ok,
   load_external_public_ok, context_load_ok, flush_context_ok,
   run_pairs_empty⟩

/-- C5 witness: one successful load immediately followed by a flush of the
returned handle leaves the fresh context's registry empty. -/
theorem C5_witness :
    (run_alloc_flush_pairs [AllocCall.load 1 2 3 7]
        test_context).open_handles = ∅ :=
  C5_registry_tracks_allocations.2.2.2.2.2.2.2 [AllocCall.load 1 2 3 7]
    test_context rfl
    (by
      intro c hc
      rw [List.mem_singleton] at hc
      subst hc
      exact ⟨7, fun ctx2 => rfl⟩)

/-- C6: when the transport resource initializes successfully and the engine
resource initialization then fails, Context::new returns the translated
engine error, constructs no Context, and the already-initialized transport
resource is released (its local MBox owner dropped) before returning. -/
theorem C6_partial_init_releases_transport :
    ∀ (tcti_rc esys_rc : Nat),
      is_success tcti_rc = true → is_success esys_rc = false →
      Context.new tcti_rc esys_rc =
        (.error (.tss_error esys_rc),
          [FFIEvent.tctiInit, FFIEvent.esysInit, FFIEvent.tctiRelease]) := by
  intro t e ht he
  simp [Context.new, ht, he]

/-- C6 witness: concrete statuses 0 (TCTI ok) and 1 (ESYS failure). -/
theorem C6_witness :
    Context.new 0 1 =
      (.error (.tss_error 1),
        [FFIEvent.tctiInit, FFIEvent.esysInit, FFIEvent.tctiRelease]) :=
  C6_partial_init_releases_transport 0 1 rfl rfl

/-- C7: set_sessions followed by the sessions getter returns exactly the set
tuple, independent of the prior state; the setter replaces the whole 3-slot
tuple at once and is idempotent. -/
theorem C7_set_sessions_atomic_idempotent :
    ∀ (ctx ctx2 : Context) (t : Nat × Nat × Nat),
      (ctx.set_sessions t).sessions = t ∧
      ctx.set_sessions t = { ctx with sessions := t } ∧
      (ctx.set_sessions t).set_sessions t = ctx.set_sessions t ∧
      (ctx.set_sessions t).sessions = (ctx2.set_sessions t).sessions :=
  fun ctx ctx2 t => ⟨rfl, rfl, rfl, rfl⟩

/-- C8: with more than 16 creation_pcrs entries, create_primary_key and
create_key fail with a local WrongParamSize error before any foreign call
(empty event trace, state unchanged); with at most 16 entries the marshalled
selection list has count equal to the input length, its first count slots are
the input entries, the unused slots are the default entry, and this
marshalled list is exactly what the foreign call receives. -/
theorem C8_creation_pcrs_capped (ctx : Context) (ph pub : Nat)
    (a i o p : List Nat) (rc hout opv opb : Nat) :
    (16 < p.length →
      ctx.create_primary_key ph pub a i o p rc hout =
        (.error (.local_error .WrongParamSize), ctx, []) ∧
      ctx.create_key ph pub a i o p rc opv opb =
        (.error (.local_error .WrongParamSize), ctx, [])) ∧
    (p.length ≤ 16 →
      (mk_creation_pcrs p).count = p.length ∧
      (mk_creation_pcrs p).pcrSelections.take p.length = p ∧
      (mk_creation_pcrs p).pcrSelections.drop p.length =
        List.replicate (16 - p.length) 0 ∧
      (a.length ≤ 64 → i.length ≤ 256 → o.length ≤ 64 →
        (ctx.create_primary_key ph pub a i o p rc hout).2.2 =
          [FFIEvent.esysCreatePrimary (mk_creation_pcrs p)] ∧
        (ctx.create_key ph pub a i o p rc opv opb).2.2 =
          [FFIEvent.esysCreate (mk_creation_pcrs p)])) := by
  constructor
  · intro h16
    constructor
    · unfold Context.create_primary_key
      cases hw1 : wrap_buffer a 64 with
      | error e2 =>
        have he := wrap_buffer_error _ _ _ hw1
        subst he
        rfl
      | ok v1 =>
        cases hw2 : wrap_buffer i 256 with
        | error e2 =>
          have he := wrap_buffer_error _ _ _ hw2
          subst he
          rfl
        | ok v2 =>
          cases hw3 : wrap_buffer o 64 with
          | error e2 =>
            have he := wrap_buffer_error _ _ _ hw3
            subst he
            rfl
          | ok v3 =>
            rw [if_pos h16]
    · unfold Context.create_key
      cases hw1 : wrap_buffer a 64 with
      | error e2 =>
        have he := wrap_buffer_error _ _ _ hw1
        subst he
        rfl
      | ok v1 =>
        cases hw2 : wrap_buffer i 256 with
        | error e2 =>
          have he := wrap_buffer_error _ _ _ hw2
          subst he
          rfl
        | ok v2 =>
          cases hw3 : wrap_buffer o 64 with
          | error e2 =>
            have he := wrap_buffer_error _ _ _ hw3
            subst he
            rfl
          | ok v3 =>
            rw [if_pos h16]
  · intro hle
    refine ⟨rfl, List.take_left p _, List.drop_left p _, ?_⟩
    intro ha hi ho
    have hwa := wrap_buffer_ok a 64 ha
    have hwi := wrap_buffer_ok i 256 hi
    have hwo := wrap_buffer_ok o 64 ho
    constructor
    · unfold Context.create_primary_key
      simp only [hwa, hwi, hwo]
      rw [if_neg (by omega)]
      by_cases hrc : is_success rc
      · simp [hrc]
      · simp [hrc]
    · unfold Context.create_key
      simp only [hwa, hwi, hwo]
      rw [if_neg (by omega)]
      by_cases hrc : is_success rc
      · simp [hrc]
      · simp [hrc]

/-- C8 witness: a 17-entry selection list is rejected with WrongParamSize,
with no foreign call and no state change. -/
theorem C8_witness :
    test_context.create_primary_key 0 0 [] [] [] (List.replicate 17 0) 0 1 =
      (.error (.local_error .WrongParamSize), test_context, []) :=
  ((C8_creation_pcrs_capped test_context 0 0 [] [] [] (List.replicate 17 0)
      0 1 0 0).1 (by decide)).1

/-- C9: a get_random request that does not fit the protocol's u16 field fails
with a local WrongParamSize error, issues no foreign call, and leaves the
whole context (open_handles and sessions included) unchanged. -/
theorem C9_get_random_oversize_request :
    ∀ (ctx : Context) (n rc : Nat) (out : TPM2B),
      65536 ≤ n →
      ctx.get_random n rc out =
        (.error (.local_error .WrongParamSize), ctx, []) := by
  intro ctx n rc out h
  unfold Context.get_random u16_try_from
  rw [if_neg (by omega)]

/-- C9 witness: the smallest oversize request, 65536 bytes. -/
theorem C9_witness :
    test_context.get_random 65536 0 { size := 0, buffer := [] } =
      (.error (.local_error .WrongParamSize), test_context, []) :=
  C9_get_random_oversize_request test_context 65536 0
    { size := 0, buffer := [] } (Nat.le_refl 65536)

/-- C10: on success get_random returns exactly the first size bytes of the
engine's output buffer — its length is the reported size field, never the
zero padding — with no check against the requested count, so the result may
be shorter than requested. -/
theorem C10_get_random_result_length :
    ∀ (ctx : Context) (n rc : Nat) (out : TPM2B),
      n < 65536 → is_success rc = true → out.size ≤ out.buffer.length →
      (ctx.get_random n rc out).1 = .ok (out.buffer.take out.size) ∧
      ∀ l, (ctx.get_random n rc out).1 = .ok l → l.length = out.size := by
  intro ctx n rc out hn hrc hsz
  have hfst : (ctx.get_random n rc out).1 = .ok (out.buffer.take out.size) := by
    unfold Context.get_random u16_try_from
    rw [if_pos hn]
    simp [hrc]
  refine ⟨hfst, ?_⟩
  intro l hl
  rw [hfst] at hl
  injection hl with h2
  rw [← h2]
  simp [List.length_take]
  exact hsz

/-- C10 witness: a request for 8 bytes answered by an engine buffer reporting
size 2 succeeds with exactly the 2 reported bytes (shorter than requested). -/
theorem C10_witness :
    (test_context.get_random 8 0
        { size := 2, buffer := List.replicate 64 5 }).1 =
      .ok ((List.replicate 64 5).take 2) :=
  (C10_get_random_result_length test_context 8 0
    { size := 2, buffer := List.replicate 64 5 } (by decide) rfl (by decide)).1

end TssEsapi
